import Mathlib

/-!
Verification of the unit-conversion engine of `unit-conversion-mcp`
(`crates/mcp_primitives/src/tools.rs`).

The engine is embedded shallowly: `f64` values are modelled as exact
rationals (`ℚ`), so every multiplicative/affine conversion is exact
arithmetic; the Rust `as i32` cast used by the Beaufort table is modelled
as truncation toward zero saturated to the `i32` range; `Result` is
modelled as `Except String`.  Unit-name strings are Lean `String`s and
the Rust `str::to_lowercase` call is modelled by mapping `Char.toLower`
over the characters (they agree on ASCII, which covers the whole catalog
key space).
-/

/-- The `UnitType` enum of `tools.rs`: the seven quantity categories. -/
inductive UnitType where
  | Distance
  | Volume
  | Weight
  | Temperature
  | Digital
  | Pressure
  | Speed
deriving DecidableEq, Repr

/-- The `Display` impl for `UnitType`: the lowercase category name. -/
def UnitType.display : UnitType → String
  | .Distance => "distance"
  | .Volume => "volume"
  | .Weight => "weight"
  | .Temperature => "temperature"
  | .Digital => "digital"
  | .Pressure => "pressure"
  | .Speed => "speed"

/-- Model of Rust `str::to_lowercase` (agrees with it on ASCII input,
which covers every catalog key). -/
def lowerStr (s : String) : String := ⟨s.data.map Char.toLower⟩

/-- Truncation of a rational toward zero, the rounding used by Rust's
`f64 as i32` cast. -/
def truncTowardZero (q : ℚ) : ℤ := if 0 ≤ q then ⌊q⌋ else ⌈q⌉

/-- Rust's saturating `f64 as i32` cast on the rational model: truncate
toward zero, then clamp into the `i32` range. -/
def f64AsI32 (q : ℚ) : ℤ :=
  min (max (truncTowardZero q) (-2147483648)) 2147483647

/-- `UnitConversion::beaufort_to_mps`: the fixed 13-entry lookup table
from Beaufort force (truncated to `i32`) to meters per second; anything
outside 0..=12 falls to the `_` arm, 35.0 m/s. -/
def beaufort_to_mps (beaufort : ℚ) : ℚ :=
  let n := f64AsI32 beaufort
  if n = 0 then 0.0
  else if n = 1 then 1.5
  else if n = 2 then 3.0
  else if n = 3 then 5.0
  else if n = 4 then 7.5
  else if n = 5 then 10.0
  else if n = 6 then 12.5
  else if n = 7 then 15.5
  else if n = 8 then 18.5
  else if n = 9 then 22.0
  else if n = 10 then 26.0
  else if n = 11 then 30.0
  else if n = 12 then 35.0
  else 35.0

/-- `UnitConversion::mps_to_beaufort`: ordered threshold bands from
meters per second to Beaufort force. -/
def mps_to_beaufort (mps : ℚ) : ℚ :=
  if mps < 0.5 then 0.0
  else if mps < 2.0 then 1.0
  else if mps < 4.0 then 2.0
  else if mps < 6.0 then 3.0
  else if mps < 9.0 then 4.0
  else if mps < 11.0 then 5.0
  else if mps < 14.0 then 6.0
  else if mps < 17.0 then 7.0
  else if mps < 21.0 then 8.0
  else if mps < 24.0 then 9.0
  else if mps < 28.0 then 10.0
  else if mps < 33.0 then 11.0
  else 12.0

/-- `UnitConversion::to_base_unit`: lower-case the unit name, then map it
to the value expressed in the category's base unit together with the
category; unknown names produce the `Unsupported unit` error (carrying
the original, un-lowered name). -/
def to_base_unit (value : ℚ) (unit : String) : Except String (ℚ × UnitType) :=
  match lowerStr unit with
  | "meters" | "m" => .ok (value, .Distance)
  | "kilometers" | "km" => .ok (value * 1000.0, .Distance)
  | "miles" | "mi" => .ok (value * 1609.344, .Distance)
  | "feet" | "ft" => .ok (value * 0.3048, .Distance)
  | "inches" | "in" => .ok (value * 0.0254, .Distance)
  | "yards" | "yd" => .ok (value * 0.9144, .Distance)
  | "nautical_miles" | "nmi" => .ok (value * 1852.0, .Distance)
  | "liters" | "l" => .ok (value, .Volume)
  | "milliliters" | "ml" => .ok (value / 1000.0, .Volume)
  | "gallons" | "gal" => .ok (value * 3.78541, .Volume)
  | "quarts" | "qt" => .ok (value * 0.946353, .Volume)
  | "pints" | "pt" => .ok (value * 0.473176, .Volume)
  | "cups" => .ok (value * 0.236588, .Volume)
  | "fluid_ounces" | "fl_oz" => .ok (value * 0.0295735, .Volume)
  | "kilograms" | "kg" => .ok (value, .Weight)
  | "grams" | "g" => .ok (value / 1000.0, .Weight)
  | "pounds" | "lb" | "lbs" => .ok (value * 0.453592, .Weight)
  | "ounces" | "oz" => .ok (value * 0.0283495, .Weight)
  | "stones" | "st" => .ok (value * 6.35029, .Weight)
  | "celsius" | "c" => .ok (value, .Temperature)
  | "fahrenheit" | "f" => .ok ((value - 32.0) * 5.0 / 9.0, .Temperature)
  | "kelvin" | "k" => .ok (value - 273.15, .Temperature)
  | "bytes" | "b" => .ok (value, .Digital)
  | "kilobytes" | "kb" => .ok (value * 1024.0, .Digital)
  | "megabytes" | "mb" => .ok (value * 1024.0 * 1024.0, .Digital)
  | "gigabytes" | "gb" => .ok (value * 1024.0 * 1024.0 * 1024.0, .Digital)
  | "terabytes" | "tb" => .ok (value * 1024.0 * 1024.0 * 1024.0 * 1024.0, .Digital)
  | "bits" => .ok (value / 8.0, .Digital)
  | "kilobits" | "kbit" => .ok (value * 1024.0 / 8.0, .Digital)
  | "megabits" | "mbit" => .ok (value * 1024.0 * 1024.0 / 8.0, .Digital)
  | "gigabits" | "gbit" => .ok (value * 1024.0 * 1024.0 * 1024.0 / 8.0, .Digital)
  | "pascal" | "pa" => .ok (value, .Pressure)
  | "kilopascal" | "kpa" => .ok (value * 1000.0, .Pressure)
  | "megapascal" | "mpa" => .ok (value * 1000000.0, .Pressure)
  | "bar" => .ok (value * 100000.0, .Pressure)
  | "psi" => .ok (value * 6894.76, .Pressure)
  | "atmosphere" | "atm" => .ok (value * 101325.0, .Pressure)
  | "torr" => .ok (value * 133.322, .Pressure)
  | "mmhg" => .ok (value * 133.322, .Pressure)
  | "meters_per_second" | "mps" | "m/s" => .ok (value, .Speed)
  | "kilometers_per_hour" | "kph" | "km/h" => .ok (value / 3.6, .Speed)
  | "miles_per_hour" | "mph" => .ok (value * 0.44704, .Speed)
  | "knots" | "kt" => .ok (value * 0.514444, .Speed)
  | "feet_per_second" | "fps" | "ft/s" => .ok (value * 0.3048, .Speed)
  | "beaufort" => .ok (beaufort_to_mps value, .Speed)
  | _ => .error ("Unsupported unit: " ++ unit)

/-- `UnitConversion::from_base_unit`: lower-case the unit name and match
it together with the category tag; a unit name paired with a category it
does not belong to (or an unknown name) falls to the catch-all error arm
(carrying the lowered name, as in the source). -/
def from_base_unit (value : ℚ) (unit : String) (unit_type : UnitType) : Except String ℚ :=
  match lowerStr unit, unit_type with
  | "meters", .Distance | "m", .Distance => .ok value
  | "kilometers", .Distance | "km", .Distance => .ok (value / 1000.0)
  | "miles", .Distance | "mi", .Distance => .ok (value / 1609.344)
  | "feet", .Distance | "ft", .Distance => .ok (value / 0.3048)
  | "inches", .Distance | "in", .Distance => .ok (value / 0.0254)
  | "yards", .Distance | "yd", .Distance => .ok (value / 0.9144)
  | "nautical_miles", .Distance | "nmi", .Distance => .ok (value / 1852.0)
  | "liters", .Volume | "l", .Volume => .ok value
  | "milliliters", .Volume | "ml", .Volume => .ok (value * 1000.0)
  | "gallons", .Volume | "gal", .Volume => .ok (value / 3.78541)
  | "quarts", .Volume | "qt", .Volume => .ok (value / 0.946353)
  | "pints", .Volume | "pt", .Volume => .ok (value / 0.473176)
  | "cups", .Volume => .ok (value / 0.236588)
  | "fluid_ounces", .Volume | "fl_oz", .Volume => .ok (value / 0.0295735)
  | "kilograms", .Weight | "kg", .Weight => .ok value
  | "grams", .Weight | "g", .Weight => .ok (value * 1000.0)
  | "pounds", .Weight | "lb", .Weight | "lbs", .Weight => .ok (value / 0.453592)
  | "ounces", .Weight | "oz", .Weight => .ok (value / 0.0283495)
  | "stones", .Weight | "st", .Weight => .ok (value / 6.35029)
  | "celsius", .Temperature | "c", .Temperature => .ok value
  | "fahrenheit", .Temperature | "f", .Temperature => .ok (value * 9.0 / 5.0 + 32.0)
  | "kelvin", .Temperature | "k", .Temperature => .ok (value + 273.15)
  | "bytes", .Digital | "b", .Digital => .ok value
  | "kilobytes", .Digital | "kb", .Digital => .ok (value / 1024.0)
  | "megabytes", .Digital | "mb", .Digital => .ok (value / (1024.0 * 1024.0))
  | "gigabytes", .Digital | "gb", .Digital => .ok (value / (1024.0 * 1024.0 * 1024.0))
  | "terabytes", .Digital | "tb", .Digital => .ok (value / (1024.0 * 1024.0 * 1024.0 * 1024.0))
  | "bits", .Digital => .ok (value * 8.0)
  | "kilobits", .Digital | "kbit", .Digital => .ok (value * 8.0 / 1024.0)
  | "megabits", .Digital | "mbit", .Digital => .ok (value * 8.0 / (1024.0 * 1024.0))
  | "gigabits", .Digital | "gbit", .Digital => .ok (value * 8.0 / (1024.0 * 1024.0 * 1024.0))
  | "pascal", .Pressure | "pa", .Pressure => .ok value
  | "kilopascal", .Pressure | "kpa", .Pressure => .ok (value / 1000.0)
  | "megapascal", .Pressure | "mpa", .Pressure => .ok (value / 1000000.0)
  | "bar", .Pressure => .ok (value / 100000.0)
  | "psi", .Pressure => .ok (value / 6894.76)
  | "atmosphere", .Pressure | "atm", .Pressure => .ok (value / 101325.0)
  | "torr", .Pressure => .ok (value / 133.322)
  | "mmhg", .Pressure => .ok (value / 133.322)
  | "meters_per_second", .Speed | "mps", .Speed | "m/s", .Speed => .ok value
  | "kilometers_per_hour", .Speed | "kph", .Speed | "km/h", .Speed => .ok (value * 3.6)
  | "miles_per_hour", .Speed | "mph", .Speed => .ok (value / 0.44704)
  | "knots", .Speed | "kt", .Speed => .ok (value / 0.514444)
  | "feet_per_second", .Speed | "fps", .Speed | "ft/s", .Speed => .ok (value / 0.3048)
  | "beaufort", .Speed => .ok (mps_to_beaufort value)
  | unit_name, t => .error ("Unsupported unit: " ++ unit_name ++ " for type: " ++ t.display)

/-- The conversion pipeline of `UnitConversion::execute` (§4.2
`convert`): resolve the source unit to a base value and category, then
express the base value in the target unit; the category tags along with
the successful result. -/
def convert (value : ℚ) (from_unit to_unit : String) : Except String (ℚ × UnitType) :=
  match to_base_unit value from_unit with
  | .error e => .error e
  | .ok (base_value, unit_type) =>
    match from_base_unit base_value to_unit unit_type with
    | .error e => .error e
    | .ok result => .ok (result, unit_type)

/-- The JSON value space (`serde_json::Value`) as far as the tool's
argument handling observes it. -/
inductive Json where
  | null
  | bool (b : Bool)
  | num (n : ℚ)
  | str (s : String)
  | arr (elems : List Json)
  | obj (fields : List (String × Json))

/-- The `ToolContent` variants the tool produces (only `Text` is used). -/
inductive ToolContent where
  | Text (text : String)

/-- The `UnitConversionParams` argument struct. -/
structure UnitConversionParams where
  value : ℚ
  from_unit : String
  to_unit : String

/-- First binding for a key in a JSON object's field list. -/
def getField (fields : List (String × Json)) (key : String) : Option Json :=
  (fields.find? (fun f => f.1 == key)).map (fun f => f.2)

/-- `serde_json::from_value::<UnitConversionParams>`: requires an object
with a numeric `value` and string `from_unit` / `to_unit`; extra fields
are ignored; anything else is a parse error. -/
def parseParams : Json → Except String UnitConversionParams
  | .obj fields =>
    match getField fields "value", getField fields "from_unit", getField fields "to_unit" with
    | some (.num v), some (.str fu), some (.str tu) => .ok ⟨v, fu, tu⟩
    | _, _, _ => .error "invalid arguments: missing field or wrong type"
  | _ => .error "invalid arguments: not an object"

/-- The fixed help text returned when the argument bundle is absent. -/
def missingArgumentsText : String :=
  "Error: Missing arguments for unit conversion.\n\nTo use this tool, please provide:\n- value: The numeric value to convert (e.g., 10)\n- from_unit: The source unit (e.g., \"meters\", \"pounds\", \"celsius\")\n- to_unit: The target unit (e.g., \"feet\", \"kilograms\", \"fahrenheit\")\n\nExample: \x7b\"value\": 10, \"from_unit\": \"meters\", \"to_unit\": \"feet\"\x7d"

/-- The parse-error text, wrapping the deserializer's error message. -/
def invalidArgumentsText (error : String) : String :=
  "Error: Invalid arguments for unit conversion.\n\nParsing failed with: " ++ error
    ++ "\n\nRequired parameters:\n- value: A number (e.g., 10.5)\n- from_unit: A string specifying the source unit\n- to_unit: A string specifying the target unit\n\nPlease ensure your JSON is properly formatted and includes all required fields."

/-- The unknown-source-unit text, listing every supported unit. -/
def unknownSourceText (from_unit : String) : String :=
  "Error: Unrecognized source unit \"" ++ from_unit
    ++ "\".\n\nSupported units by category:\n\nDistance: meters, kilometers, miles, feet, inches, yards, nautical_miles\nVolume: liters, milliliters, gallons, quarts, pints, cups, fluid_ounces\nWeight: kilograms, grams, pounds, ounces, stones\nTemperature: celsius, fahrenheit, kelvin\nDigital: bytes, kilobytes, megabytes, gigabytes, terabytes, bits, kilobits, megabits, gigabits\nPressure: pascal, kilopascal, megapascal, bar, psi, atmosphere, torr, mmhg\nSpeed: meters_per_second, kilometers_per_hour, miles_per_hour, knots, feet_per_second, beaufort\n\nNote: Units are case-insensitive. Try using the full unit name or common abbreviations."

/-- The per-category valid-unit list quoted in the target-unit error. -/
def categoryUnits : UnitType → String
  | .Distance => "meters, kilometers, miles, feet, inches, yards, nautical_miles"
  | .Volume => "liters, milliliters, gallons, quarts, pints, cups, fluid_ounces"
  | .Weight => "kilograms, grams, pounds, ounces, stones"
  | .Temperature => "celsius, fahrenheit, kelvin"
  | .Digital => "bytes, kilobytes, megabytes, gigabytes, terabytes, bits, kilobits, megabits, gigabits"
  | .Pressure => "pascal, kilopascal, megapascal, bar, psi, atmosphere, torr, mmhg"
  | .Speed => "meters_per_second, kilometers_per_hour, miles_per_hour, knots, feet_per_second, beaufort"

/-- The target-unit failure text: names the source unit's category
(covering both the cross-category and the unknown-target cases) and
lists that category's valid units. -/
def targetUnitText (from_unit to_unit : String) (t : UnitType) : String :=
  "Error: Cannot convert from " ++ from_unit ++ " (" ++ t.display ++ ") to \"" ++ to_unit
    ++ "\".\n\nThe target unit \"" ++ to_unit ++ "\" is either:\n1. Not supported for "
    ++ t.display ++ " conversions\n2. From a different unit category\n3. Misspelled\n\nSupported "
    ++ t.display ++ " units: " ++ categoryUnits t
    ++ "\n\nNote: You can only convert between units of the same type (e.g., distance to distance, weight to weight)."

/-- Rendering of a rational for the success payload (stands in for
Rust's `f64` display; no claim depends on the digits). -/
def ratText (q : ℚ) : String := toString q

/-- The serialized success payload (`serde_json` renders object keys in
sorted order). -/
def successText (value : ℚ) (from_unit : String) (result : ℚ) (to_unit : String)
    (t : UnitType) : String :=
  "\x7b\"converted\":\"" ++ ratText result ++ " " ++ to_unit ++ "\",\"original\":\""
    ++ ratText value ++ " " ++ from_unit ++ "\",\"unit_type\":\"" ++ t.display
    ++ "\",\"value\":" ++ ratText result ++ "\x7d"

/-- `UnitConversion::execute`: every branch — absent arguments, parse
failure, unknown source unit, target-unit failure, success — returns
`Ok` with a single `Text` payload; no branch produces `Err`. -/
def execute (arguments : Option Json) : Except String (List ToolContent) :=
  match arguments with
  | none => .ok [ToolContent.Text missingArgumentsText]
  | some args =>
    match parseParams args with
    | .error e => .ok [ToolContent.Text (invalidArgumentsText e)]
    | .ok params =>
      match to_base_unit params.value params.from_unit with
      | .error _ => .ok [ToolContent.Text (unknownSourceText params.from_unit)]
      | .ok (base_value, unit_type) =>
        match from_base_unit base_value params.to_unit unit_type with
        | .error _ =>
          .ok [ToolContent.Text (targetUnitText params.from_unit params.to_unit unit_type)]
        | .ok result =>
          .ok [ToolContent.Text
            (successText params.value params.from_unit result params.to_unit unit_type)]

theorem char_toLower_toLower (c : Char) : c.toLower.toLower = c.toLower := by
  simp only [Char.toLower]
  by_cases h : c.toNat ≥ 65 ∧ c.toNat ≤ 90
  · rw [if_pos h]
    have hv : (Char.ofNat (c.toNat + 32)).toNat = c.toNat + 32 := by
      rw [Char.ofNat, dif_pos (Or.inl (by omega : c.toNat + 32 < 55296))]
      rfl
    rw [if_neg (by rw [hv]; omega)]
  · rw [if_neg h, if_neg h]

theorem lowerStr_idem (s : String) : lowerStr (lowerStr s) = lowerStr s := by
  unfold lowerStr
  refine congrArg String.mk ?_
  show (s.data.map Char.toLower).map Char.toLower = s.data.map Char.toLower
  rw [List.map_map]
  exact List.map_congr_left (fun c _ => char_toLower_toLower c)

set_option maxHeartbeats 4000000 in
/-- For every unit except `beaufort`, `from_base_unit` inverts
`to_base_unit` exactly on the rational model. -/
theorem from_base_to_base (x b : ℚ) (c : UnitType) (k : String)
    (h : to_base_unit x k = .ok (b, c)) (hbf : lowerStr k ≠ "beaufort") :
    from_base_unit b k c = .ok x := by
  unfold to_base_unit at h
  split at h
  all_goals first
  | (injection h; done)
  | (rename_i heq; injection h with h2; injection h2 with hv hc; subst hc; subst hv;
     first
     | exact absurd heq hbf
     | (unfold from_base_unit; rw [heq]; exact congrArg Except.ok (by ring)))

set_option maxHeartbeats 4000000 in
/-- If a unit name resolves (via `to_base_unit`) to category `c2`, then
`from_base_unit` on that name with any other category tag falls to the
catch-all error arm. -/
theorem from_base_mismatch (x bz w : ℚ) (c c2 : UnitType) (k : String)
    (h : to_base_unit x k = .ok (bz, c2)) (hne : c ≠ c2) :
    ∃ e, from_base_unit w k c = .error e := by
  unfold to_base_unit at h
  split at h
  all_goals first
  | (injection h; done)
  | (rename_i heq; injection h with h2; injection h2 with hv hc; subst hc;
     unfold from_base_unit; rw [heq];
     cases c <;> first | exact absurd rfl hne | exact ⟨_, rfl⟩)

set_option maxHeartbeats 4000000 in
/-- For a unit that resolves through `to_base_unit` to category `c` and
is not `beaufort`, `to_base_unit` inverts `from_base_unit` exactly. -/
theorem to_base_from_base (z bz w y : ℚ) (c : UnitType) (k : String)
    (hk : to_base_unit z k = .ok (bz, c)) (hbf : lowerStr k ≠ "beaufort")
    (h : from_base_unit w k c = .ok y) :
    to_base_unit y k = .ok (w, c) := by
  unfold to_base_unit at hk
  split at hk
  all_goals first
  | (injection hk; done)
  | (rename_i heq; injection hk with h2; injection h2 with hv hc; subst hc;
     first
     | exact absurd heq hbf
     | (unfold from_base_unit at h; rw [heq] at h;
        have hy := Except.ok.inj h; subst hy;
        unfold to_base_unit; rw [heq];
        exact congrArg Except.ok (by rw [Prod.mk.injEq]; exact ⟨by ring, rfl⟩)))

set_option maxHeartbeats 4000000 in
/-- A unit that resolves through `to_base_unit` to category `c` also
succeeds through `from_base_unit` with tag `c`, at any value. -/
theorem from_base_resolves (z bz w : ℚ) (c : UnitType) (k : String)
    (h : to_base_unit z k = .ok (bz, c)) : ∃ y, from_base_unit w k c = .ok y := by
  unfold to_base_unit at h
  split at h
  all_goals first
  | (injection h; done)
  | (rename_i heq; injection h with h2; injection h2 with hv hc; subst hc;
     unfold from_base_unit; rw [heq]; exact ⟨_, rfl⟩)

/-- `convert` reduces to `Ok` when both resolution steps succeed. -/
theorem convert_eq_of (x b y : ℚ) (c : UnitType) (u v : String)
    (h1 : to_base_unit x u = .ok (b, c)) (h2 : from_base_unit b v c = .ok y) :
    convert x u v = .ok (y, c) := by
  simp only [convert, h1, h2]

/-- `convert` propagates a failure of the target-unit step. -/
theorem convert_error_target (x b : ℚ) (c : UnitType) (u v e : String)
    (h1 : to_base_unit x u = .ok (b, c)) (h2 : from_base_unit b v c = .error e) :
    convert x u v = .error e := by
  simp only [convert, h1, h2]

set_option maxHeartbeats 4000000 in
/-- `to_base_unit` produces the same successful results on a string and
on its lower-cased form (only the error payload can differ, since it
carries the original spelling). -/
theorem to_base_lower (v b : ℚ) (c : UnitType) (s : String) :
    to_base_unit v s = .ok (b, c) ↔ to_base_unit v (lowerStr s) = .ok (b, c) := by
  constructor
  · intro h
    unfold to_base_unit at h
    split at h
    all_goals first
    | (injection h; done)
    | (rename_i heq; unfold to_base_unit; rw [lowerStr_idem, heq]; exact h)
  · intro h
    unfold to_base_unit at h
    rw [lowerStr_idem] at h
    split at h
    all_goals first
    | (injection h; done)
    | (rename_i heq; unfold to_base_unit; rw [heq]; exact h)

/-- `from_base_unit` is a function of the lower-cased unit name alone
(its error payload also carries the lowered name). -/
theorem from_base_lower (z : ℚ) (s : String) (t : UnitType) :
    from_base_unit z s t = from_base_unit z (lowerStr s) t := by
  unfold from_base_unit
  rw [lowerStr_idem]

/-- The aliases of each category whose relation to the base unit is
purely multiplicative: every supported alias except the affine
`fahrenheit` / `kelvin` and the banded `beaufort`. -/
def multAliases : UnitType → List String
  | .Distance => ["meters", "m", "kilometers", "km", "miles", "mi", "feet", "ft", "inches", "in", "yards", "yd", "nautical_miles", "nmi"]
  | .Volume => ["liters", "l", "milliliters", "ml", "gallons", "gal", "quarts", "qt", "pints", "pt", "cups", "fluid_ounces", "fl_oz"]
  | .Weight => ["kilograms", "kg", "grams", "g", "pounds", "lb", "lbs", "ounces", "oz", "stones", "st"]
  | .Temperature => ["celsius", "c"]
  | .Digital => ["bytes", "b", "kilobytes", "kb", "megabytes", "mb", "gigabytes", "gb", "terabytes", "tb", "bits", "kilobits", "kbit", "megabits", "mbit", "gigabits", "gbit"]
  | .Pressure => ["pascal", "pa", "kilopascal", "kpa", "megapascal", "mpa", "bar", "psi", "atmosphere", "atm", "torr", "mmhg"]
  | .Speed => ["meters_per_second", "mps", "m/s", "kilometers_per_hour", "kph", "km/h", "miles_per_hour", "mph", "knots", "kt", "feet_per_second", "fps", "ft/s"]

set_option maxHeartbeats 4000000 in
/-- Every multiplicative alias of category `c` converts to base by a
positive factor `cf` and back from base by dividing by that `cf`. -/
theorem mult_unit_coeff (c : UnitType) (u : String) (hu : u ∈ multAliases c) :
    ∃ cf : ℚ, 0 < cf ∧ (∀ x, to_base_unit x u = .ok (x * cf, c)) ∧
      (∀ w, from_base_unit w u c = .ok (w / cf)) := by
  cases c <;> fin_cases hu
  · exact ⟨1, by norm_num,
      fun x => congrArg Except.ok (by rw [Prod.mk.injEq]; exact ⟨by ring, rfl⟩),
      fun w => congrArg Except.ok (by ring)⟩
  · exact ⟨1, by norm_num,
      fun x => congrArg Except.ok (by rw [Prod.mk.injEq]; exact ⟨by ring, rfl⟩),
      fun w => congrArg Except.ok (by ring)⟩
  · exact ⟨1000.0, by norm_num,
      fun x => congrArg Except.ok (by rw [Prod.mk.injEq]; exact ⟨by ring, rfl⟩),
      fun w => congrArg Except.ok (by ring)⟩
  · exact ⟨1000.0, by norm_num,
      fun x => congrArg Except.ok (by rw [Prod.mk.injEq]; exact ⟨by ring, rfl⟩),
      fun w => congrArg Except.ok (by ring)⟩
  · exact ⟨1609.344, by norm_num,
      fun x => congrArg Except.ok (by rw [Prod.mk.injEq]; exact ⟨by ring, rfl⟩),
      fun w => congrArg Except.ok (by ring)⟩
  · exact ⟨1609.344, by norm_num,
      fun x => congrArg Except.ok (by rw [Prod.mk.injEq]; exact ⟨by ring, rfl⟩),
      fun w => congrArg Except.ok (by ring)⟩
  · exact ⟨0.3048, by norm_num,
      fun x => congrArg Except.ok (by rw [Prod.mk.injEq]; exact ⟨by ring, rfl⟩),
      fun w => congrArg Except.ok (by ring)⟩
  · exact ⟨0.3048, by norm_num,
      fun x => congrArg Except.ok (by rw [Prod.mk.injEq]; exact ⟨by ring, rfl⟩),
      fun w => congrArg Except.ok (by ring)⟩
  · exact ⟨0.0254, by norm_num,
      fun x => congrArg Except.ok (by rw [Prod.mk.injEq]; exact ⟨by ring, rfl⟩),
      fun w => congrArg Except.ok (by ring)⟩
  · exact ⟨0.0254, by norm_num,
      fun x => congrArg Except.ok (by rw [Prod.mk.injEq]; exact ⟨by ring, rfl⟩),
      fun w => congrArg Except.ok (by ring)⟩
  · exact ⟨0.9144, by norm_num,
      fun x => congrArg Except.ok (by rw [Prod.mk.injEq]; exact ⟨by ring, rfl⟩),
      fun w => congrArg Except.ok (by ring)⟩
  · exact ⟨0.9144, by norm_num,
      fun x => congrArg Except.ok (by rw [Prod.mk.injEq]; exact ⟨by ring, rfl⟩),
      fun w => congrArg Except.ok (by ring)⟩
  · exact ⟨1852.0, by norm_num,
      fun x => congrArg Except.ok (by rw [Prod.mk.injEq]; exact ⟨by ring, rfl⟩),
      fun w => congrArg Except.ok (by ring)⟩
  · exact ⟨1852.0, by norm_num,
      fun x => congrArg Except.ok (by rw [Prod.mk.injEq]; exact ⟨by ring, rfl⟩),
      fun w => congrArg Except.ok (by ring)⟩
  · exact ⟨1, by norm_num,
      fun x => congrArg Except.ok (by rw [Prod.mk.injEq]; exact ⟨by ring, rfl⟩),
      fun w => congrArg Except.ok (by ring)⟩
  · exact ⟨1, by norm_num,
      fun x => congrArg Except.ok (by rw [Prod.mk.injEq]; exact ⟨by ring, rfl⟩),
      fun w => congrArg Except.ok (by ring)⟩
  · exact ⟨1/1000, by norm_num,
      fun x => congrArg Except.ok (by rw [Prod.mk.injEq]; exact ⟨by ring, rfl⟩),
      fun w => congrArg Except.ok (by ring)⟩
  · exact ⟨1/1000, by norm_num,
      fun x => congrArg Except.ok (by rw [Prod.mk.injEq]; exact ⟨by ring, rfl⟩),
      fun w => congrArg Except.ok (by ring)⟩
  · exact ⟨3.78541, by norm_num,
      fun x => congrArg Except.ok (by rw [Prod.mk.injEq]; exact ⟨by ring, rfl⟩),
      fun w => congrArg Except.ok (by ring)⟩
  · exact ⟨3.78541, by norm_num,
      fun x => congrArg Except.ok (by rw [Prod.mk.injEq]; exact ⟨by ring, rfl⟩),
      fun w => congrArg Except.ok (by ring)⟩
  · exact ⟨0.946353, by norm_num,
      fun x => congrArg Except.ok (by rw [Prod.mk.injEq]; exact ⟨by ring, rfl⟩),
      fun w => congrArg Except.ok (by ring)⟩
  · exact ⟨0.946353, by norm_num,
      fun x => congrArg Except.ok (by rw [Prod.mk.injEq]; exact ⟨by ring, rfl⟩),
      fun w => congrArg Except.ok (by ring)⟩
  · exact ⟨0.473176, by norm_num,
      fun x => congrArg Except.ok (by rw [Prod.mk.injEq]; exact ⟨by ring, rfl⟩),
      fun w => congrArg Except.ok (by ring)⟩
  · exact ⟨0.473176, by norm_num,
      fun x => congrArg Except.ok (by rw [Prod.mk.injEq]; exact ⟨by ring, rfl⟩),
      fun w => congrArg Except.ok (by ring)⟩
  · exact ⟨0.236588, by norm_num,
      fun x => congrArg Except.ok (by rw [Prod.mk.injEq]; exact ⟨by ring, rfl⟩),
      fun w => congrArg Except.ok (by ring)⟩
  · exact ⟨0.0295735, by norm_num,
      fun x => congrArg Except.ok (by rw [Prod.mk.injEq]; exact ⟨by ring, rfl⟩),
      fun w => congrArg Except.ok (by ring)⟩
  · exact ⟨0.0295735, by norm_num,
      fun x => congrArg Except.ok (by rw [Prod.mk.injEq]; exact ⟨by ring, rfl⟩),
      fun w => congrArg Except.ok (by ring)⟩
  · exact ⟨1, by norm_num,
      fun x => congrArg Except.ok (by rw [Prod.mk.injEq]; exact ⟨by ring, rfl⟩),
      fun w => congrArg Except.ok (by ring)⟩
  · exact ⟨1, by norm_num,
      fun x => congrArg Except.ok (by rw [Prod.mk.injEq]; exact ⟨by ring, rfl⟩),
      fun w => congrArg Except.ok (by ring)⟩
  · exact ⟨1/1000, by norm_num,
      fun x => congrArg Except.ok (by rw [Prod.mk.injEq]; exact ⟨by ring, rfl⟩),
      fun w => congrArg Except.ok (by ring)⟩
  · exact ⟨1/1000, by norm_num,
      fun x => congrArg Except.ok (by rw [Prod.mk.injEq]; exact ⟨by ring, rfl⟩),
      fun w => congrArg Except.ok (by ring)⟩
  · exact ⟨0.453592, by norm_num,
      fun x => congrArg Except.ok (by rw [Prod.mk.injEq]; exact ⟨by ring, rfl⟩),
      fun w => congrArg Except.ok (by ring)⟩
  · exact ⟨0.453592, by norm_num,
      fun x => congrArg Except.ok (by rw [Prod.mk.injEq]; exact ⟨by ring, rfl⟩),
      fun w => congrArg Except.ok (by ring)⟩
  · exact ⟨0.453592, by norm_num,
      fun x => congrArg Except.ok (by rw [Prod.mk.injEq]; exact ⟨by ring, rfl⟩),
      fun w => congrArg Except.ok (by ring)⟩
  · exact ⟨0.0283495, by norm_num,
      fun x => congrArg Except.ok (by rw [Prod.mk.injEq]; exact ⟨by ring, rfl⟩),
      fun w => congrArg Except.ok (by ring)⟩
  · exact ⟨0.0283495, by norm_num,
      fun x => congrArg Except.ok (by rw [Prod.mk.injEq]; exact ⟨by ring, rfl⟩),
      fun w => congrArg Except.ok (by ring)⟩
  · exact ⟨6.35029, by norm_num,
      fun x => congrArg Except.ok (by rw [Prod.mk.injEq]; exact ⟨by ring, rfl⟩),
      fun w => congrArg Except.ok (by ring)⟩
  · exact ⟨6.35029, by norm_num,
      fun x => congrArg Except.ok (by rw [Prod.mk.injEq]; exact ⟨by ring, rfl⟩),
      fun w => congrArg Except.ok (by ring)⟩
  · exact ⟨1, by norm_num,
      fun x => congrArg Except.ok (by rw [Prod.mk.injEq]; exact ⟨by ring, rfl⟩),
      fun w => congrArg Except.ok (by ring)⟩
  · exact ⟨1, by norm_num,
      fun x => congrArg Except.ok (by rw [Prod.mk.injEq]; exact ⟨by ring, rfl⟩),
      fun w => congrArg Except.ok (by ring)⟩
  · exact ⟨1, by norm_num,
      fun x => congrArg Except.ok (by rw [Prod.mk.injEq]; exact ⟨by ring, rfl⟩),
      fun w => congrArg Except.ok (by ring)⟩
  · exact ⟨1, by norm_num,
      fun x => congrArg Except.ok (by rw [Prod.mk.injEq]; exact ⟨by ring, rfl⟩),
      fun w => congrArg Except.ok (by ring)⟩
  · exact ⟨1024.0, by norm_num,
      fun x => congrArg Except.ok (by rw [Prod.mk.injEq]; exact ⟨by ring, rfl⟩),
      fun w => congrArg Except.ok (by ring)⟩
  · exact ⟨1024.0, by norm_num,
      fun x => congrArg Except.ok (by rw [Prod.mk.injEq]; exact ⟨by ring, rfl⟩),
      fun w => congrArg Except.ok (by ring)⟩
  · exact ⟨1024.0 * 1024.0, by norm_num,
      fun x => congrArg Except.ok (by rw [Prod.mk.injEq]; exact ⟨by ring, rfl⟩),
      fun w => congrArg Except.ok (by ring)⟩
  · exact ⟨1024.0 * 1024.0, by norm_num,
      fun x => congrArg Except.ok (by rw [Prod.mk.injEq]; exact ⟨by ring, rfl⟩),
      fun w => congrArg Except.ok (by ring)⟩
  · exact ⟨1024.0 * 1024.0 * 1024.0, by norm_num,
      fun x => congrArg Except.ok (by rw [Prod.mk.injEq]; exact ⟨by ring, rfl⟩),
      fun w => congrArg Except.ok (by ring)⟩
  · exact ⟨1024.0 * 1024.0 * 1024.0, by norm_num,
      fun x => congrArg Except.ok (by rw [Prod.mk.injEq]; exact ⟨by ring, rfl⟩),
      fun w => congrArg Except.ok (by ring)⟩
  · exact ⟨1024.0 * 1024.0 * 1024.0 * 1024.0, by norm_num,
      fun x => congrArg Except.ok (by rw [Prod.mk.injEq]; exact ⟨by ring, rfl⟩),
      fun w => congrArg Except.ok (by ring)⟩
  · exact ⟨1024.0 * 1024.0 * 1024.0 * 1024.0, by norm_num,
      fun x => congrArg Except.ok (by rw [Prod.mk.injEq]; exact ⟨by ring, rfl⟩),
      fun w => congrArg Except.ok (by ring)⟩
  · exact ⟨1/8, by norm_num,
      fun x => congrArg Except.ok (by rw [Prod.mk.injEq]; exact ⟨by ring, rfl⟩),
      fun w => congrArg Except.ok (by ring)⟩
  · exact ⟨1024.0 / 8.0, by norm_num,
      fun x => congrArg Except.ok (by rw [Prod.mk.injEq]; exact ⟨by ring, rfl⟩),
      fun w => congrArg Except.ok (by ring)⟩
  · exact ⟨1024.0 / 8.0, by norm_num,
      fun x => congrArg Except.ok (by rw [Prod.mk.injEq]; exact ⟨by ring, rfl⟩),
      fun w => congrArg Except.ok (by ring)⟩
  · exact ⟨1024.0 * 1024.0 / 8.0, by norm_num,
      fun x => congrArg Except.ok (by rw [Prod.mk.injEq]; exact ⟨by ring, rfl⟩),
      fun w => congrArg Except.ok (by ring)⟩
  · exact ⟨1024.0 * 1024.0 / 8.0, by norm_num,
      fun x => congrArg Except.ok (by rw [Prod.mk.injEq]; exact ⟨by ring, rfl⟩),
      fun w => congrArg Except.ok (by ring)⟩
  · exact ⟨1024.0 * 1024.0 * 1024.0 / 8.0, by norm_num,
      fun x => congrArg Except.ok (by rw [Prod.mk.injEq]; exact ⟨by ring, rfl⟩),
      fun w => congrArg Except.ok (by ring)⟩
  · exact ⟨1024.0 * 1024.0 * 1024.0 / 8.0, by norm_num,
      fun x => congrArg Except.ok (by rw [Prod.mk.injEq]; exact ⟨by ring, rfl⟩),
      fun w => congrArg Except.ok (by ring)⟩
  · exact ⟨1, by norm_num,
      fun x => congrArg Except.ok (by rw [Prod.mk.injEq]; exact ⟨by ring, rfl⟩),
      fun w => congrArg Except.ok (by ring)⟩
  · exact ⟨1, by norm_num,
      fun x => congrArg Except.ok (by rw [Prod.mk.injEq]; exact ⟨by ring, rfl⟩),
      fun w => congrArg Except.ok (by ring)⟩
  · exact ⟨1000.0, by norm_num,
      fun x => congrArg Except.ok (by rw [Prod.mk.injEq]; exact ⟨by ring, rfl⟩),
      fun w => congrArg Except.ok (by ring)⟩
  · exact ⟨1000.0, by norm_num,
      fun x => congrArg Except.ok (by rw [Prod.mk.injEq]; exact ⟨by ring, rfl⟩),
      fun w => congrArg Except.ok (by ring)⟩
  · exact ⟨1000000.0, by norm_num,
      fun x => congrArg Except.ok (by rw [Prod.mk.injEq]; exact ⟨by ring, rfl⟩),
      fun w => congrArg Except.ok (by ring)⟩
  · exact ⟨1000000.0, by norm_num,
      fun x => congrArg Except.ok (by rw [Prod.mk.injEq]; exact ⟨by ring, rfl⟩),
      fun w => congrArg Except.ok (by ring)⟩
  · exact ⟨100000.0, by norm_num,
      fun x => congrArg Except.ok (by rw [Prod.mk.injEq]; exact ⟨by ring, rfl⟩),
      fun w => congrArg Except.ok (by ring)⟩
  · exact ⟨6894.76, by norm_num,
      fun x => congrArg Except.ok (by rw [Prod.mk.injEq]; exact ⟨by ring, rfl⟩),
      fun w => congrArg Except.ok (by ring)⟩
  · exact ⟨101325.0, by norm_num,
      fun x => congrArg Except.ok (by rw [Prod.mk.injEq]; exact ⟨by ring, rfl⟩),
      fun w => congrArg Except.ok (by ring)⟩
  · exact ⟨101325.0, by norm_num,
      fun x => congrArg Except.ok (by rw [Prod.mk.injEq]; exact ⟨by ring, rfl⟩),
      fun w => congrArg Except.ok (by ring)⟩
  · exact ⟨133.322, by norm_num,
      fun x => congrArg Except.ok (by rw [Prod.mk.injEq]; exact ⟨by ring, rfl⟩),
      fun w => congrArg Except.ok (by ring)⟩
  · exact ⟨133.322, by norm_num,
      fun x => congrArg Except.ok (by rw [Prod.mk.injEq]; exact ⟨by ring, rfl⟩),
      fun w => congrArg Except.ok (by ring)⟩
  · exact ⟨1, by norm_num,
      fun x => congrArg Except.ok (by rw [Prod.mk.injEq]; exact ⟨by ring, rfl⟩),
      fun w => congrArg Except.ok (by ring)⟩
  · exact ⟨1, by norm_num,
      fun x => congrArg Except.ok (by rw [Prod.mk.injEq]; exact ⟨by ring, rfl⟩),
      fun w => congrArg Except.ok (by ring)⟩
  · exact ⟨1, by norm_num,
      fun x => congrArg Except.ok (by rw [Prod.mk.injEq]; exact ⟨by ring, rfl⟩),
      fun w => congrArg Except.ok (by ring)⟩
  · exact ⟨1/3.6, by norm_num,
      fun x => congrArg Except.ok (by rw [Prod.mk.injEq]; exact ⟨by ring, rfl⟩),
      fun w => congrArg Except.ok (by ring)⟩
  · exact ⟨1/3.6, by norm_num,
      fun x => congrArg Except.ok (by rw [Prod.mk.injEq]; exact ⟨by ring, rfl⟩),
      fun w => congrArg Except.ok (by ring)⟩
  · exact ⟨1/3.6, by norm_num,
      fun x => congrArg Except.ok (by rw [Prod.mk.injEq]; exact ⟨by ring, rfl⟩),
      fun w => congrArg Except.ok (by ring)⟩
  · exact ⟨0.44704, by norm_num,
      fun x => congrArg Except.ok (by rw [Prod.mk.injEq]; exact ⟨by ring, rfl⟩),
      fun w => congrArg Except.ok (by ring)⟩
  · exact ⟨0.44704, by norm_num,
      fun x => congrArg Except.ok (by rw [Prod.mk.injEq]; exact ⟨by ring, rfl⟩),
      fun w => congrArg Except.ok (by ring)⟩
  · exact ⟨0.514444, by norm_num,
      fun x => congrArg Except.ok (by rw [Prod.mk.injEq]; exact ⟨by ring, rfl⟩),
      fun w => congrArg Except.ok (by ring)⟩
  · exact ⟨0.514444, by norm_num,
      fun x => congrArg Except.ok (by rw [Prod.mk.injEq]; exact ⟨by ring, rfl⟩),
      fun w => congrArg Except.ok (by ring)⟩
  · exact ⟨0.3048, by norm_num,
      fun x => congrArg Except.ok (by rw [Prod.mk.injEq]; exact ⟨by ring, rfl⟩),
      fun w => congrArg Except.ok (by ring)⟩
  · exact ⟨0.3048, by norm_num,
      fun x => congrArg Except.ok (by rw [Prod.mk.injEq]; exact ⟨by ring, rfl⟩),
      fun w => congrArg Except.ok (by ring)⟩
  · exact ⟨0.3048, by norm_num,
      fun x => congrArg Except.ok (by rw [Prod.mk.injEq]; exact ⟨by ring, rfl⟩),
      fun w => congrArg Except.ok (by ring)⟩

/-- C1: whenever the two unit names resolve to different quantity
categories, the conversion fails with an error response and never
produces a numeric result (in particular
`convert(5, "meters", "kilograms")` fails). -/
theorem claim_cross_category_fails (x b1 b2 : ℚ) (c1 c2 : UnitType) (u v : String)
    (hu : to_base_unit x u = .ok (b1, c1)) (hv : to_base_unit x v = .ok (b2, c2))
    (hne : c1 ≠ c2) : ∃ e, convert x u v = .error e := by
  obtain ⟨e, he⟩ := from_base_mismatch x b2 b1 c1 c2 v hv hne
  exact ⟨e, convert_error_target x b1 c1 u v e hu he⟩

/-- C1 witness: `convert(5, "meters", "kilograms")` fails. -/
theorem claim_cross_category_fails_witness :
    ∃ e, convert 5 "meters" "kilograms" = .error e :=
  claim_cross_category_fails 5 5 5 .Distance .Weight "meters" "kilograms" rfl rfl (by decide)

/-- C2 counterexample: `meters_per_second` and `beaufort` are in the same
category (Speed), but converting 3.5 m/s to Beaufort and back returns 3,
which is not within 1e-9 relative tolerance of 3.5. -/
theorem claim_same_category_roundtrip_cex :
    convert (7/2) "meters_per_second" "beaufort" = .ok (2, .Speed) ∧
    convert 2 "beaufort" "meters_per_second" = .ok (3, .Speed) ∧
    ¬ (|(3 : ℚ) - 7/2| ≤ 1/1000000000 * (7/2)) :=
  ⟨congrArg Except.ok (by norm_num [mps_to_beaufort, Prod.mk.injEq]),
   congrArg Except.ok
     (by norm_num [beaufort_to_mps, f64AsI32, truncTowardZero, Prod.mk.injEq]),
   by rw [abs_le]; norm_num⟩

/-- C2 (amended: both units not `beaufort`): converting between two
same-category units and back returns the original value exactly in the
rational model. -/
theorem claim_same_category_roundtrip (x bu bv : ℚ) (c : UnitType) (u v : String)
    (hu : to_base_unit x u = .ok (bu, c)) (hv : to_base_unit x v = .ok (bv, c))
    (hbu : lowerStr u ≠ "beaufort") (hbv : lowerStr v ≠ "beaufort") :
    ∃ y, convert x u v = .ok (y, c) ∧ convert y v u = .ok (x, c) := by
  obtain ⟨y, hy⟩ := from_base_resolves x bv bu c v hv
  refine ⟨y, convert_eq_of x bu y c u v hu hy, ?_⟩
  exact convert_eq_of y bu x c v u
    (to_base_from_base x bv bu y c v hv hbv hy)
    (from_base_to_base x bu c u hu hbu)

/-- C2 witness: miles → kilometers → miles round-trips 2 exactly. -/
theorem claim_same_category_roundtrip_witness :
    ∃ y, convert 2 "miles" "kilometers" = .ok (y, .Distance) ∧
      convert y "kilometers" "miles" = .ok (2, .Distance) :=
  claim_same_category_roundtrip 2 (2 * 1609.344) (2 * 1000.0) .Distance "miles" "kilometers"
    rfl rfl (by decide) (by decide)

/-- C3: for every supported unit except `beaufort` (all of which are
multiplicative or affine), from-base after to-base returns a value
within 1e-9 relative tolerance of the input (indeed exactly equal in
the rational model). -/
theorem claim_roundtrip_tolerance (x b : ℚ) (c : UnitType) (k : String)
    (h : to_base_unit x k = .ok (b, c)) (hbf : lowerStr k ≠ "beaufort") :
    ∃ y, from_base_unit b k c = .ok y ∧ |y - x| ≤ 1/1000000000 * |x| :=
  ⟨x, from_base_to_base x b c k h hbf, by simp only [sub_self, abs_zero]; positivity⟩

/-- C3 witness: 212 °F to base (100 °C) and back. -/
theorem claim_roundtrip_tolerance_witness :
    ∃ y, from_base_unit ((212 - 32.0) * 5.0 / 9.0) "fahrenheit" .Temperature = .ok y ∧
      |y - 212| ≤ 1/1000000000 * |(212 : ℚ)| :=
  claim_roundtrip_tolerance 212 ((212 - 32.0) * 5.0 / 9.0) .Temperature "fahrenheit" rfl
    (by decide)

/-- C4 counterexample: converting 3.9 from `beaufort` to `beaufort`
returns 3, not the original value. -/
theorem claim_self_identity_cex :
    convert (39/10) "beaufort" "beaufort" = .ok (3, .Speed) ∧ (3 : ℚ) ≠ 39/10 :=
  ⟨congrArg Except.ok
     (by norm_num [beaufort_to_mps, mps_to_beaufort, f64AsI32, truncTowardZero, Prod.mk.injEq]),
   by norm_num⟩

/-- C4 (amended: every supported unit except `beaufort`): converting a
value from a unit to that same unit returns it exactly. -/
theorem claim_self_identity (x b : ℚ) (c : UnitType) (u : String)
    (h : to_base_unit x u = .ok (b, c)) (hbf : lowerStr u ≠ "beaufort") :
    convert x u u = .ok (x, c) :=
  convert_eq_of x b x c u u h (from_base_to_base x b c u h hbf)

/-- C4 witness: meters → meters is the identity on 5. -/
theorem claim_self_identity_witness : convert 5 "meters" "meters" = .ok (5, .Distance) :=
  claim_self_identity 5 5 .Distance "meters" rfl (by decide)

/-- C5: the m/s→Beaufort conversion returns exactly the band value given
by the ordered thresholds. -/
theorem claim_beaufort_bands (x : ℚ) :
    (x < 0.5 → mps_to_beaufort x = 0) ∧
    (0.5 ≤ x → x < 2 → mps_to_beaufort x = 1) ∧
    (2 ≤ x → x < 4 → mps_to_beaufort x = 2) ∧
    (4 ≤ x → x < 6 → mps_to_beaufort x = 3) ∧
    (6 ≤ x → x < 9 → mps_to_beaufort x = 4) ∧
    (9 ≤ x → x < 11 → mps_to_beaufort x = 5) ∧
    (11 ≤ x → x < 14 → mps_to_beaufort x = 6) ∧
    (14 ≤ x → x < 17 → mps_to_beaufort x = 7) ∧
    (17 ≤ x → x < 21 → mps_to_beaufort x = 8) ∧
    (21 ≤ x → x < 24 → mps_to_beaufort x = 9) ∧
    (24 ≤ x → x < 28 → mps_to_beaufort x = 10) ∧
    (28 ≤ x → x < 33 → mps_to_beaufort x = 11) ∧
    (33 ≤ x → mps_to_beaufort x = 12) := by
  refine ⟨?_, ?_, ?_, ?_, ?_, ?_, ?_, ?_, ?_, ?_, ?_, ?_, ?_⟩
  · intro h1; unfold mps_to_beaufort; rw [if_pos (by linarith)]; norm_num
  · intro h1 h2; unfold mps_to_beaufort; rw [if_neg (by linarith), if_pos (by linarith)]; norm_num
  · intro h1 h2; unfold mps_to_beaufort; rw [if_neg (by linarith), if_neg (by linarith), if_pos (by linarith)]; norm_num
  · intro h1 h2; unfold mps_to_beaufort; rw [if_neg (by linarith), if_neg (by linarith), if_neg (by linarith), if_pos (by linarith)]; norm_num
  · intro h1 h2; unfold mps_to_beaufort; rw [if_neg (by linarith), if_neg (by linarith), if_neg (by linarith), if_neg (by linarith), if_pos (by linarith)]; norm_num
  · intro h1 h2; unfold mps_to_beaufort; rw [if_neg (by linarith), if_neg (by linarith), if_neg (by linarith), if_neg (by linarith), if_neg (by linarith), if_pos (by linarith)]; norm_num
  · intro h1 h2; unfold mps_to_beaufort; rw [if_neg (by linarith), if_neg (by linarith), if_neg (by linarith), if_neg (by linarith), if_neg (by linarith), if_neg (by linarith), if_pos (by linarith)]; norm_num
  · intro h1 h2; unfold mps_to_beaufort; rw [if_neg (by linarith), if_neg (by linarith), if_neg (by linarith), if_neg (by linarith), if_neg (by linarith), if_neg (by linarith), if_neg (by linarith), if_pos (by linarith)]; norm_num
  · intro h1 h2; unfold mps_to_beaufort; rw [if_neg (by linarith), if_neg (by linarith), if_neg (by linarith), if_neg (by linarith), if_neg (by linarith), if_neg (by linarith), if_neg (by linarith), if_neg (by linarith), if_pos (by linarith)]; norm_num
  · intro h1 h2; unfold mps_to_beaufort; rw [if_neg (by linarith), if_neg (by linarith), if_neg (by linarith), if_neg (by linarith), if_neg (by linarith), if_neg (by linarith), if_neg (by linarith), if_neg (by linarith), if_neg (by linarith), if_pos (by linarith)]; norm_num
  · intro h1 h2; unfold mps_to_beaufort; rw [if_neg (by linarith), if_neg (by linarith), if_neg (by linarith), if_neg (by linarith), if_neg (by linarith), if_neg (by linarith), if_neg (by linarith), if_neg (by linarith), if_neg (by linarith), if_neg (by linarith), if_pos (by linarith)]; norm_num
  · intro h1 h2; unfold mps_to_beaufort; rw [if_neg (by linarith), if_neg (by linarith), if_neg (by linarith), if_neg (by linarith), if_neg (by linarith), if_neg (by linarith), if_neg (by linarith), if_neg (by linarith), if_neg (by linarith), if_neg (by linarith), if_neg (by linarith), if_pos (by linarith)]; norm_num
  · intro h1; unfold mps_to_beaufort; rw [if_neg (by linarith), if_neg (by linarith), if_neg (by linarith), if_neg (by linarith), if_neg (by linarith), if_neg (by linarith), if_neg (by linarith), if_neg (by linarith), if_neg (by linarith), if_neg (by linarith), if_neg (by linarith), if_neg (by linarith)]; norm_num

/-- C5 witness: 10 m/s is Beaufort force 5. -/
theorem claim_beaufort_bands_witness : mps_to_beaufort 10 = 5 :=
  (claim_beaufort_bands 10).2.2.2.2.2.1 (by norm_num) (by norm_num)

/-- C6: for every argument bundle — absent, malformed, unknown units,
cross-category units, or valid — `execute` returns `Ok` with a single
textual payload; it never propagates a hard error. -/
theorem claim_execute_always_text (arguments : Option Json) :
    ∃ s, execute arguments = .ok [ToolContent.Text s] := by
  unfold execute
  split
  · exact ⟨_, rfl⟩
  · split
    · exact ⟨_, rfl⟩
    · split
      · exact ⟨_, rfl⟩
      · split
        · exact ⟨_, rfl⟩
        · exact ⟨_, rfl⟩

/-- C7: unit-name resolution is case-insensitive but otherwise
exact-match — a string resolves to the same successful category and
value as its lower-cased form; `METERS` / `Meters` / `meters` resolve
identically; a leading space (` meters`) is not trimmed and fails. -/
theorem claim_case_insensitive (v z b : ℚ) (c t : UnitType) (s : String) :
    (to_base_unit v s = .ok (b, c) ↔ to_base_unit v (lowerStr s) = .ok (b, c)) ∧
    from_base_unit z s t = from_base_unit z (lowerStr s) t ∧
    to_base_unit v "METERS" = .ok (v, .Distance) ∧
    to_base_unit v "Meters" = .ok (v, .Distance) ∧
    to_base_unit v "meters" = .ok (v, .Distance) ∧
    (∃ e, to_base_unit v " meters" = .error e) :=
  ⟨to_base_lower v b c s, from_base_lower z s t, rfl, rfl, rfl, ⟨_, rfl⟩⟩

/-- C8: no sign validation — a negative value converts between any two
same-category multiplicative units (any category, any pair of aliases
outside the affine fahrenheit/kelvin and the banded beaufort) into the
correspondingly negative value in the target unit, not an error. -/
theorem claim_negative_multiplicative (x : ℚ) (hx : x < 0) (c : UnitType) (u v : String)
    (hu : u ∈ multAliases c) (hv : v ∈ multAliases c) :
    ∃ y, convert x u v = .ok (y, c) ∧ y < 0 := by
  obtain ⟨cu, hcu, htu, _⟩ := mult_unit_coeff c u hu
  obtain ⟨cv, hcv, _, hfv⟩ := mult_unit_coeff c v hv
  refine ⟨x * cu / cv, convert_eq_of x (x * cu) (x * cu / cv) c u v (htu x) (hfv (x * cu)), ?_⟩
  exact div_neg_of_neg_of_pos (mul_neg_of_neg_of_pos hx hcu) hcv

/-- C8 witness: −2 pounds converts to a negative amount of ounces. -/
theorem claim_negative_multiplicative_witness :
    ∃ y, convert (-2) "pounds" "ounces" = .ok (y, .Weight) ∧ y < 0 :=
  claim_negative_multiplicative (-2) (by norm_num) .Weight "pounds" "ounces"
    (by decide) (by decide)

/-- C9: 1 gigabyte is exactly 1024 megabytes (powers of 1024), with
category Digital whose display name is "digital". -/
theorem claim_gigabytes_digital :
    convert 1 "gigabytes" "megabytes" = .ok (1024, .Digital) ∧
    UnitType.display .Digital = "digital" :=
  ⟨congrArg Except.ok (by norm_num [Prod.mk.injEq]), rfl⟩

/-- C10: the Beaufort-to-m/s conversion truncates its input toward zero:
any input in `[n, n+1)` for `0 ≤ n ≤ 12` converts exactly as force `n`,
and any input whose truncation falls outside `0..12` yields 35 m/s. -/
theorem claim_beaufort_truncation (x : ℚ) (n : ℤ) :
    (0 ≤ n → n ≤ 12 → (n : ℚ) ≤ x → x < (n : ℚ) + 1 →
      beaufort_to_mps x = beaufort_to_mps (n : ℚ)) ∧
    (truncTowardZero x < 0 ∨ 12 < truncTowardZero x → beaufort_to_mps x = 35) := by
  constructor
  · intro h0 h12 hle hlt
    have ht1 : truncTowardZero x = n := by
      unfold truncTowardZero
      rw [if_pos (le_trans (by exact_mod_cast h0) hle)]
      rw [Int.floor_eq_iff]
      exact ⟨hle, hlt⟩
    have ht2 : truncTowardZero (n : ℚ) = n := by
      unfold truncTowardZero
      rw [if_pos (by exact_mod_cast h0)]
      exact Int.floor_intCast n
    simp only [beaufort_to_mps, f64AsI32, ht1, ht2]
  · intro h
    have hout : f64AsI32 x < 0 ∨ 12 < f64AsI32 x := by
      unfold f64AsI32
      rcases h with h | h
      · exact Or.inl (lt_of_le_of_lt (min_le_left _ _) (max_lt h (by norm_num)))
      · exact Or.inr (lt_min (lt_of_lt_of_le h (le_max_left _ _)) (by norm_num))
    simp only [beaufort_to_mps]
    repeat rw [if_neg (by omega)]
    norm_num

/-- C10 witness: 3.9 Beaufort converts as force 3, and −5 Beaufort
(truncation −5, outside 0..12) yields 35 m/s. -/
theorem claim_beaufort_truncation_witness :
    beaufort_to_mps (39/10) = beaufort_to_mps ((3 : ℤ) : ℚ) ∧ beaufort_to_mps (-5) = 35 :=
  ⟨(claim_beaufort_truncation (39/10) 3).1 (by norm_num) (by norm_num) (by norm_num) (by norm_num),
   (claim_beaufort_truncation (-5) 0).2
     (Or.inl (by
       unfold truncTowardZero
       rw [if_neg (by norm_num), show ((-5 : ℚ)) = ((-5 : ℤ) : ℚ) by norm_num, Int.ceil_intCast]
       norm_num))⟩
